import Mathlib

/-!
Shallow embedding of the receipt intermediate representation of
costcocr (src/costcocr/receipt.py) and of the CSV writer backend
(src/costcocr/writers/csv.py), with theorems checking the spec claims.

Python values relevant to the constructors are modelled by an explicit
dynamic type: Python numbers (bool, int, float) become PyNum, with
rationals standing in for floats; Python objects flowing into the
constructors become PyObj.  Fallible constructors return Except.
-/

/-- A Python number as accepted by isinstance(v, Number): bool, int or
float.  Floats are modelled as rationals. -/
inductive PyNum where
  | pbool : Bool → PyNum
  | pint : Int → PyNum
  | pfloat : ℚ → PyNum
deriving DecidableEq

/-- Numeric value of a Python number: True is 1, False is 0.  Python
comparisons and arithmetic on mixed bool/int/float coerce this way. -/
def PyNum.toRat : PyNum → ℚ
  | .pbool b => if b then 1 else 0
  | .pint n => (n : ℚ)
  | .pfloat q => q

/-- Python numeric equality (==): compares values, so True == 1 == 1.0. -/
def PyNum.eqPy (a b : PyNum) : Bool :=
  a.toRat == b.toRat

/-- A metadata value in a Receipt meta dictionary: text or a primitive
number (spec section 3: text keys to text/primitive values). -/
inductive MetaVal where
  | mstr : String → MetaVal
  | mnum : PyNum → MetaVal
deriving DecidableEq

/-- Python equality on metadata values. -/
def MetaVal.eqPy : MetaVal → MetaVal → Bool
  | .mstr a, .mstr b => a == b
  | .mnum a, .mnum b => a.eqPy b
  | _, _ => false

/-- A Python dict with text keys, as an association list (insertion
order, unique keys as in a dict). -/
abbrev Meta := List (String × MetaVal)

/-- An item line on a receipt (class Item, receipt.py lines 149-233).
The field total is computed once in Item.__init__ (line 194). -/
structure Item where
  name : String
  cost : PyNum
  discount : PyNum
  tax : PyNum
  total : ℚ
deriving DecidableEq

/-- A container for a list of items (class ItemList, receipt.py lines
111-146); basically just a list. -/
structure ItemList where
  items : List Item
deriving DecidableEq

/-- Root class for the receipt intermediate format (class Receipt,
receipt.py lines 52-108): a metadata dict plus an ItemList. -/
structure Receipt where
  meta : Meta
  itemlist : ItemList
deriving DecidableEq

/-- A dynamically typed Python object as it may be handed to the
constructors.  odictSub stands for an instance of a proper subclass of
dict (e.g. OrderedDict); oother stands for an object of any other
type, tagged with its type name. -/
inductive PyObj where
  | ostr : String → PyObj
  | onum : PyNum → PyObj
  | olist : List PyObj → PyObj
  | otuple : List PyObj → PyObj
  | odict : Meta → PyObj
  | odictSub : Meta → PyObj
  | oitem : Item → PyObj
  | oitemList : ItemList → PyObj
  | oreceipt : Receipt → PyObj
  | onone : PyObj
  | oother : String → PyObj

/-- Python exceptions raised by the constructors and by write.
missingConversionFns models the ValueError raised by write with the
message naming the set of missing required conversion functions; the
set is carried as data because a Python set prints in no fixed order. -/
inductive PyError where
  | typeError : String → PyError
  | valueError : String → PyError
  | missingConversionFns : List String → PyError
deriving DecidableEq

/-- type(x) is str, exactly. -/
def PyObj.isStr : PyObj → Bool
  | .ostr _ => true
  | _ => false

/-- isinstance(x, Number): bool, int and float all register as Number. -/
def PyObj.isNum : PyObj → Bool
  | .onum _ => true
  | _ => false

/-- type(x) is list, exactly (an ItemList is a subclass, not list). -/
def PyObj.isList : PyObj → Bool
  | .olist _ => true
  | _ => false

/-- type(x) is tuple, exactly. -/
def PyObj.isTuple : PyObj → Bool
  | .otuple _ => true
  | _ => false

/-- type(x) is Item, exactly. -/
def PyObj.isItem : PyObj → Bool
  | .oitem _ => true
  | _ => false

/-- Python sequence types among our objects: str, list, tuple, and
ItemList (a list subclass).  A dict, number, Item, Receipt or None is
not a sequence. -/
def PyObj.isSequence : PyObj → Bool
  | .ostr _ => true
  | .olist _ => true
  | .otuple _ => true
  | .oitemList _ => true
  | _ => false

/-- Python mapping types among our objects: dict and dict subclasses. -/
def PyObj.isMapping : PyObj → Bool
  | .odict _ => true
  | .odictSub _ => true
  | _ => false

/-- Item.__init__ check for one numeric field (receipt.py lines
181-187): isinstance Number, then not negative. -/
def checkNumField (v : PyObj) (s : String) : Except PyError PyNum :=
  match v with
  | .onum n =>
      if n.toRat < 0 then
        .error (.valueError (s ++ " must be positive"))
      else
        .ok n
  | _ => .error (.typeError (s ++ " must be a Number."))

/-- Item.__init__ (receipt.py lines 176-194): validates the name and
the three numeric fields in order, then stores the fields and computes
total = (cost * (1 + tax)) - discount once. -/
def mkItem (name cost discount tax : PyObj) : Except PyError Item :=
  match name with
  | .ostr n =>
      match checkNumField cost "cost" with
      | .error e => .error e
      | .ok c =>
          match checkNumField discount "discount" with
          | .error e => .error e
          | .ok d =>
              match checkNumField tax "tax" with
              | .error e => .error e
              | .ok t =>
                  .ok { name := n, cost := c, discount := d, tax := t,
                        total := (c.toRat * (1 + t.toRat)) - d.toRat }
  | _ => .error (.typeError "name must be a str")

/-- Extract the Item of each element, failing on any element whose
exact type is not Item (receipt.py line 128). -/
def extractItems : List PyObj → Except PyError (List Item)
  | [] => .ok []
  | .oitem it :: rest =>
      match extractItems rest with
      | .error e => .error e
      | .ok its => .ok (it :: its)
  | _ :: _ => .error (.typeError "items must be a list of Items")

/-- ItemList.__init__ (receipt.py lines 123-131): the argument must be
exactly a list or a tuple (type(items) not in the set of those two
types), and every element must be exactly an Item. -/
def mkItemList (items : PyObj) : Except PyError ItemList :=
  match items with
  | .olist xs =>
      match extractItems xs with
      | .error e => .error e
      | .ok its => .ok { items := its }
  | .otuple xs =>
      match extractItems xs with
      | .error e => .error e
      | .ok its => .ok { items := its }
  | _ => .error (.typeError "items must be either a list or a tuple")

/-- Receipt.__init__ (receipt.py lines 71-79): meta must be exactly a
dict, itemlist must be exactly an ItemList. -/
def mkReceipt (meta itemlist : PyObj) : Except PyError Receipt :=
  match meta with
  | .odict m =>
      match itemlist with
      | .oitemList il => .ok { meta := m, itemlist := il }
      | _ => .error (.typeError "itemlist must be an ItemList")
  | _ => .error (.typeError "meta must be a dictionary")

/-- Pad-left a numeral with zeros to a given width, for the fractional
digits of a decimal expansion. -/
def padDigits (width value : Nat) : String :=
  let t := toString value
  String.mk (List.replicate (width - t.length) ('0')) ++ t

/-- Smallest exponent k (up to 60) with den dividing 10 ^ k, when one
exists: the rational has a finite decimal expansion of k places. -/
def decExp (den : Nat) : Option Nat :=
  (List.range 61).find? (fun k => 10 ^ k % den = 0)

/-- Python str() of a float, for floats whose value has a finite
decimal expansion (the only floats arising here): sign, integer part,
a dot, and at least one fractional digit, e.g. 10.0 or 2.35. -/
def floatStr (q : ℚ) : String :=
  let sgn := if q < 0 then "-" else ""
  let n := q.num.natAbs
  let d := q.den
  match decExp d with
  | some k =>
      let scaled := n * 10 ^ k / d
      if k = 0 then
        sgn ++ toString scaled ++ ".0"
      else
        sgn ++ toString (scaled / 10 ^ k) ++ "." ++ padDigits k (scaled % 10 ^ k)
  | none => sgn ++ toString n ++ "/" ++ toString d

/-- Python str() of a number: True / False for bools, the numeral for
ints, the decimal form for floats. -/
def pyNumStr : PyNum → String
  | .pbool b => if b then "True" else "False"
  | .pint n => toString n
  | .pfloat q => floatStr q

/-- Python str() of an object, to the extent the writers need it:
strings pass through, numbers print as pyNumStr. -/
def pyObjStr : PyObj → String
  | .ostr s => s
  | .onum n => pyNumStr n
  | _ => "<object>"

/-- Item.__eq__ (receipt.py lines 228-230): all four input fields
compare equal under Python ==. -/
def Item.eqPy (a b : Item) : Bool :=
  a.name == b.name && a.cost.eqPy b.cost &&
    a.discount.eqPy b.discount && a.tax.eqPy b.tax

/-- ItemList.__eq__ (receipt.py lines 136-143): same length, and all
zipped pairs equal. -/
def ItemList.eqPy (a b : ItemList) : Bool :=
  a.items.length == b.items.length &&
    (List.zip a.items b.items).all (fun p => p.1.eqPy p.2)

/-- Python == on a dict item, a (key, value) tuple: componentwise. -/
def metaPairEq (p q : String × MetaVal) : Bool :=
  p.1 == q.1 && p.2.eqPy q.2

/-- set(m1.items()) == set(m2.items()): mutual membership of the
key/value pairs, insertion order irrelevant. -/
def metaSetEq (m1 m2 : Meta) : Bool :=
  m1.all (fun p => m2.any (metaPairEq p)) &&
    m2.all (fun p => m1.any (metaPairEq p))

/-- Receipt.__eq__ (receipt.py lines 100-105): metadata items compared
as sets, itemlists compared with ItemList.__eq__. -/
def Receipt.eqPy (a b : Receipt) : Bool :=
  metaSetEq a.meta b.meta && a.itemlist.eqPy b.itemlist

/-- Item.__repr__ (receipt.py lines 224-226): the format string
packs the name between plain double quotes with no escaping, and the
three numbers via str(). -/
def Item.reprPy (it : Item) : String :=
  "Item(\"" ++ it.name ++ "\", " ++ pyNumStr it.cost ++ ", " ++
    pyNumStr it.discount ++ ", " ++ pyNumStr it.tax ++ ")"

/-- Consume the characters of lit from the front of cs. -/
def dropLit : List Char → List Char → Option (List Char)
  | [], cs => some cs
  | _ :: _, [] => none
  | p :: ps, c :: cs => if p = c then dropLit ps cs else none

/-- Read characters up to the next double quote, consuming it. -/
def spanQuote : List Char → Option (List Char × List Char)
  | [] => none
  | c :: rest =>
      if c = '"' then some ([], rest)
      else
        match spanQuote rest with
        | some (s, r) => some (c :: s, r)
        | none => none

/-- Split a character list on every comma-space separator. -/
def splitCommaSpace : List Char → List (List Char)
  | [] => [[]]
  | ',' :: ' ' :: rest => [] :: splitCommaSpace rest
  | c :: rest =>
      match splitCommaSpace rest with
      | [] => [[c]]
      | t :: ts => (c :: t) :: ts

/-- Split a character list at every dot. -/
def splitDot : List Char → List (List Char)
  | [] => [[]]
  | '.' :: rest => [] :: splitDot rest
  | c :: rest =>
      match splitDot rest with
      | [] => [[c]]
      | t :: ts => (c :: t) :: ts

/-- Read a nonempty all-digit numeral. -/
def digitsToNatAux : List Char → Nat → Option Nat
  | [], acc => some acc
  | c :: rest, acc =>
      if c.isDigit then digitsToNatAux rest (acc * 10 + (c.toNat - 48))
      else none

/-- Value of a nonempty digit string, none otherwise. -/
def digitsToNat (cs : List Char) : Option Nat :=
  match cs with
  | [] => none
  | _ :: _ => digitsToNatAux cs 0

/-- Parse one numeric literal as printed by str(): True, False, a
nonnegative integer numeral, or a finite decimal. -/
def parseNum (tok : List Char) : Option PyNum :=
  if tok = "True".data then some (.pbool true)
  else if tok = "False".data then some (.pbool false)
  else
    match splitDot tok with
    | [a] => (digitsToNat a).map (fun n => PyNum.pint (n : Int))
    | [a, b] =>
        match digitsToNat a, digitsToNat b with
        | some ia, some ib =>
            some (.pfloat ((ia : ℚ) + (ib : ℚ) / (10 ^ b.length : ℚ)))
        | _, _ => none
    | _ => none

/-- The closing parenthesis of the constructor call: the token must
end in one. -/
def dropParen (cs : List Char) : Option (List Char) :=
  match cs.reverse with
  | ')' :: rest => some rest.reverse
  | _ => none

/-- Modelled from the spec: the dedicated re-parser for the printed
constructor-call form of an Item (spec sections 3 and 9: a parser over
the documented grammar that reconstructs the value deterministically
via the constructor; no such parser exists under src, where the module
docstring relies on eval).  Grammar, exactly what Item.reprPy prints
for well-behaved fields: Item, open parenthesis, the name between two
double quotes, then the three numeric literals, comma-space
separated, closed by a parenthesis. -/
def parseItem (s : String) : Option Item :=
  match dropLit "Item(\"".data s.data with
  | none => none
  | some r1 =>
      match spanQuote r1 with
      | none => none
      | some (nm, r2) =>
          match dropLit ", ".data r2 with
          | none => none
          | some r3 =>
              if r3.contains '"' then none
              else
                match splitCommaSpace r3 with
                | [a, b, c] =>
                    match dropParen c with
                    | none => none
                    | some c0 =>
                        match parseNum a, parseNum b, parseNum c0 with
                        | some na, some nb, some nc =>
                            match mkItem (.ostr (String.mk nm)) (.onum na)
                                (.onum nb) (.onum nc) with
                            | .ok it => some it
                            | .error _ => none
                        | _, _, _ => none
                | _ => none

/-- The variables mapping passed through write to the Receipt
conversion function; opaque pass-through data. -/
abbrev Vars := Meta

/-- The conversion-function dictionary handed to write (receipt.py
lines 236-376).  A field is none exactly when the corresponding key is
absent from the dict.  Per the documented contract, Item and
ItemListSep return str (str.join requires it), ItemList and Receipt
return the output str; the optional per-field conversions may return
any object, which flows into Item. -/
structure FnTable where
  fReceipt : Option (Meta → String → Vars → String)
  fItemList : Option (String → String)
  fItemListSep : Option (Unit → String)
  fItem : Option (PyObj → PyObj → PyObj → PyObj → String)
  fName : Option (String → PyObj)
  fCost : Option (PyNum → PyObj)
  fDiscount : Option (PyNum → PyObj)
  fTax : Option (PyNum → PyObj)

/-- Whether the dict convert_fs contains a given key. -/
def hasEntry (t : FnTable) : String → Bool
  | "Receipt" => t.fReceipt.isSome
  | "ItemList" => t.fItemList.isSome
  | "ItemListSep" => t.fItemListSep.isSome
  | "Item" => t.fItem.isSome
  | "Name" => t.fName.isSome
  | "Cost" => t.fCost.isSome
  | "Discount" => t.fDiscount.isSome
  | "Tax" => t.fTax.isSome
  | _ => false

/-- The four required conversion-function keys (receipt.py line 327). -/
def requiredNames : List String := ["Receipt", "Item", "ItemList", "ItemListSep"]

/-- missing_fs (receipt.py lines 327-328): the required keys absent
from convert_fs.  The Python value is a set; it is kept here as the
sublist of requiredNames. -/
def requiredMissing (t : FnTable) : List String :=
  requiredNames.filter (fun s => !hasEntry t s)

/-- Default for the optional Name entry (receipt.py line 336): the
identity, so the str passes through unchanged. -/
def defaultName : String → PyObj := fun s => .ostr s

/-- Default for the optional Cost / Discount / Tax entries (receipt.py
lines 337-339): str, turning the number into its text form. -/
def defaultNumStr : PyNum → PyObj := fun n => .ostr (pyNumStr n)

/-- The merged dict fs (receipt.py line 344): defaults first, then the
caller entries, so a caller entry overrides its default.  The required
entries are filled with inert placeholders only to make the fields
total; write never reaches them when an entry is missing. -/
structure Resolved where
  rReceipt : Meta → String → Vars → String
  rItemList : String → String
  rItemListSep : Unit → String
  rItem : PyObj → PyObj → PyObj → PyObj → String
  rName : String → PyObj
  rCost : PyNum → PyObj
  rDiscount : PyNum → PyObj
  rTax : PyNum → PyObj

/-- Build the merged dict fs from convert_fs and the defaults. -/
def resolve (t : FnTable) : Resolved where
  rReceipt := t.fReceipt.getD (fun _ _ _ => "")
  rItemList := t.fItemList.getD (fun _ => "")
  rItemListSep := t.fItemListSep.getD (fun _ => "")
  rItem := t.fItem.getD (fun _ _ _ _ => "")
  rName := t.fName.getD defaultName
  rCost := t.fCost.getD defaultNumStr
  rDiscount := t.fDiscount.getD defaultNumStr
  rTax := t.fTax.getD defaultNumStr

/-- A node of the IR tree, as dispatched on by the types dict of write
(receipt.py lines 361-365). -/
inductive Node where
  | nReceipt : Receipt → Node
  | nItemList : ItemList → Node
  | nItem : Item → Node

/-- Depth rank of a node kind, for termination of the traversal. -/
def Node.rank : Node → Nat
  | .nReceipt _ => 2
  | .nItemList _ => 1
  | .nItem _ => 0

/-- The recursive helper __write together with the three per-type
handlers receiptf, itemListf and itemf (receipt.py lines 347-374):
a Receipt renders its ItemList first and hands (meta, body, variables)
to fs Receipt; an ItemList renders each Item in order, joins with the
fs ItemListSep separator, and hands the join to fs ItemList; an Item
hands its four converted fields to fs Item. -/
def writeAux (fs : Resolved) (vars : Vars) : Node → String
  | .nReceipt r =>
      fs.rReceipt r.meta (writeAux fs vars (.nItemList r.itemlist)) vars
  | .nItemList il =>
      fs.rItemList (String.intercalate (fs.rItemListSep ())
        (il.items.map (fun item => writeAux fs vars (.nItem item))))
  | .nItem item =>
      fs.rItem (fs.rName item.name) (fs.rCost item.cost)
        (fs.rDiscount item.discount) (fs.rTax item.tax)
termination_by n => n.rank
decreasing_by all_goals simp [Node.rank]

/-- write (receipt.py lines 236-376): check the required entries
eagerly, raising a ValueError naming the missing ones before touching
the receipt; then merge in the defaults and traverse from the root. -/
def write (convert_fs : FnTable) (vars : Vars) (receipt : Receipt) :
    Except PyError String :=
  let missing_fs := requiredMissing convert_fs
  if missing_fs.length > 0 then
    .error (.missingConversionFns missing_fs)
  else
    .ok (writeAux (resolve convert_fs) vars (.nReceipt receipt))

/-- csv.py Receipt: emit a comment line for each of store, date and
location present in meta, then the body, joined by newlines. -/
def csvMetaLine (meta : Meta) (key label : String) : List String :=
  match List.lookup key meta with
  | some v => ["# " ++ label ++ ": " ++ (match v with
      | .mstr s => s
      | .mnum n => pyNumStr n)]
  | none => []

/-- csv.py Receipt conversion function. -/
def csvReceiptF (meta : Meta) (body : String) (_vars : Vars) : String :=
  String.intercalate "\n"
    (csvMetaLine meta "store" "Store" ++ csvMetaLine meta "date" "Date" ++
      csvMetaLine meta "location" "Location" ++ [body])

/-- csv.py ItemList conversion function: the joined items unchanged. -/
def csvItemListF (s : String) : String := s

/-- csv.py ItemListSep conversion function: a newline. -/
def csvItemListSepF : Unit → String := fun _ => "\n"

/-- csv.py Item conversion function: the four fields joined by
comma-space via str.format. -/
def csvItemF (name cost discount tax : PyObj) : String :=
  pyObjStr name ++ ", " ++ pyObjStr cost ++ ", " ++ pyObjStr discount ++
    ", " ++ pyObjStr tax

/-- The CSV writer function table (src/costcocr/writers/csv.py): the
four required entries, no optional ones. -/
def csvTable : FnTable where
  fReceipt := some csvReceiptF
  fItemList := some csvItemListF
  fItemListSep := some csvItemListSepF
  fItem := some csvItemF
  fName := none
  fCost := none
  fDiscount := none
  fTax := none

/-- type(x) is dict, exactly (a dict subclass such as OrderedDict is
not accepted by the check type(meta) is dict). -/
def PyObj.isDict : PyObj → Bool
  | .odict _ => true
  | _ => false

/-- type(x) is ItemList, exactly. -/
def PyObj.isItemListObj : PyObj → Bool
  | .oitemList _ => true
  | _ => false

/-- The merged table with every omitted optional entry made explicit:
what write behaves like per claim C8. -/
def fillDefaults (t : FnTable) : FnTable :=
  { t with
    fName := some (t.fName.getD defaultName),
    fCost := some (t.fCost.getD defaultNumStr),
    fDiscount := some (t.fDiscount.getD defaultNumStr),
    fTax := some (t.fTax.getD defaultNumStr) }

/-- The CSV table with the required ItemListSep entry removed. -/
def noSepTable : FnTable := { csvTable with fItemListSep := none }

/-- A rational given directly by its reduced numerator and
denominator, so that its parts compute by evaluation. -/
def qd (n : Int) (d : Nat) (h1 : d ≠ 0) (h2 : n.natAbs.Coprime d) : ℚ :=
  ⟨n, d, h1, h2⟩

/-- Item("Food 1", 10.00, 2.35, 9.00) from the write docstring
example, with its constructed total. -/
def sampleItem1 : Item :=
  { name := "Food 1", cost := .pfloat (qd 10 1 (by decide) (by decide)),
    discount := .pfloat (qd 47 20 (by decide) (by decide)),
    tax := .pfloat (qd 9 1 (by decide) (by decide)),
    total := qd 1953 20 (by decide) (by decide) }

/-- Item("Food 2", 20.00, 4.00, 9.00) from the write docstring
example. -/
def sampleItem2 : Item :=
  { name := "Food 2", cost := .pfloat (qd 20 1 (by decide) (by decide)),
    discount := .pfloat (qd 4 1 (by decide) (by decide)),
    tax := .pfloat (qd 9 1 (by decide) (by decide)),
    total := qd 196 1 (by decide) (by decide) }

/-- An Item with integer fields, Item("Food 1", 10, 2, 0), for the
round-trip control. -/
def plainItem : Item :=
  { name := "Food 1", cost := .pint 10, discount := .pint 2,
    tax := .pint 0, total := 8 }

/-- The receipt of the write docstring example. -/
def sampleReceipt : Receipt :=
  { meta := [("store", .mstr "Costco"), ("date", .mstr "Jan 27th"),
             ("location", .mstr "Berkeley")],
    itemlist := { items := [sampleItem1, sampleItem2] } }

/-- An Item of all-zero numeric fields whose name is one double-quote
character: Item constructs it without complaint. -/
def quoteItem : Item :=
  { name := "\x22", cost := .pint 0, discount := .pint 0, tax := .pint 0,
    total := 0 }

/-- A single valid Item wrapped in an ItemList, for the exact-type
checks. -/
def unitItemList : ItemList :=
  { items := [{ name := "a", cost := .pint 1, discount := .pint 0,
                tax := .pint 0, total := 1 }] }

/-- Claim C4: for every string name and non-negative numbers cost,
discount, tax, Item construction succeeds and stores
total = cost * (1 + tax) - discount, computed once at construction
(the embedding is immutable, as is the Python object: total is set in
Item.__init__ and only exposed through a read-only property). -/
theorem item_total_formula (name : String) (c d t : PyNum)
    (hc : 0 ≤ c.toRat) (hd : 0 ≤ d.toRat) (ht : 0 ≤ t.toRat) :
    mkItem (.ostr name) (.onum c) (.onum d) (.onum t) =
      .ok { name := name, cost := c, discount := d, tax := t,
            total := c.toRat * (1 + t.toRat) - d.toRat } := by
  simp [mkItem, checkNumField, not_lt.mpr hc, not_lt.mpr hd, not_lt.mpr ht]

/-- Witness for C4 at Item("Food 1", 10.0, 2.35, 0.09). -/
theorem item_total_formula_witness :
    mkItem (.ostr "Food 1") (.onum (.pfloat 10)) (.onum (.pfloat (47/20)))
        (.onum (.pfloat (9/100))) =
      .ok { name := "Food 1", cost := .pfloat 10, discount := .pfloat (47/20),
            tax := .pfloat (9/100),
            total := (10 : ℚ) * (1 + 9/100) - 47/20 } :=
  item_total_formula "Food 1" (.pfloat 10) (.pfloat (47/20)) (.pfloat (9/100))
    (by norm_num [PyNum.toRat]) (by norm_num [PyNum.toRat])
    (by norm_num [PyNum.toRat])

/-- Claim C9: booleans are accepted for the numeric fields of Item
(bool registers as a Number and compares against 0), count as
non-negative, and participate in the total as 1 (True) or 0 (False);
in particular Item("x", True, False, False).total == 1. -/
theorem item_accepts_bools :
    (∀ b : Bool, 0 ≤ (PyNum.pbool b).toRat) ∧
    (∀ (name : String) (c d t : PyNum),
        0 ≤ c.toRat → 0 ≤ d.toRat → 0 ≤ t.toRat →
        (mkItem (.ostr name) (.onum c) (.onum d) (.onum t)).isOk = true) ∧
    (∀ name : String,
        mkItem (.ostr name) (.onum (.pbool true)) (.onum (.pbool false))
            (.onum (.pbool false)) =
          .ok { name := name, cost := .pbool true, discount := .pbool false,
                tax := .pbool false, total := 1 }) := by
  refine ⟨fun b => ?_, fun name c d t hc hd ht => ?_, fun name => ?_⟩
  · cases b <;> norm_num [PyNum.toRat]
  · simp [mkItem, checkNumField, not_lt.mpr hc, not_lt.mpr hd, not_lt.mpr ht,
      Except.isOk, Except.toBool]
  · simp [mkItem, checkNumField, PyNum.toRat]
    norm_num

/-- Witness for C9 at Item("x", True, False, False). -/
theorem item_accepts_bools_witness :
    (mkItem (.ostr "x") (.onum (.pbool true)) (.onum (.pbool false))
        (.onum (.pbool false))).isOk = true :=
  item_accepts_bools.2.1 "x" (.pbool true) (.pbool false) (.pbool false)
    (by norm_num [PyNum.toRat]) (by norm_num [PyNum.toRat])
    (by norm_num [PyNum.toRat])

/-- checkNumField succeeds only on a non-negative Number. -/
theorem checkNumField_ok {v : PyObj} {s : String} {n : PyNum}
    (h : checkNumField v s = .ok n) : v = .onum n ∧ 0 ≤ n.toRat := by
  cases v <;> simp [checkNumField] at h
  case onum m =>
    by_cases hm : m.toRat < 0
    · simp [hm] at h
    · simp [hm] at h
      subst h
      exact ⟨rfl, not_lt.mp hm⟩

/-- mkItem succeeds only on a str name and three non-negative
Numbers. -/
theorem mkItem_ok_shape {name c d t : PyObj} {it : Item}
    (h : mkItem name c d t = .ok it) :
    ∃ nm nc nd nt, name = .ostr nm ∧ c = .onum nc ∧ d = .onum nd ∧
      t = .onum nt ∧ 0 ≤ nc.toRat ∧ 0 ≤ nd.toRat ∧ 0 ≤ nt.toRat := by
  cases name <;> simp only [mkItem] at h <;> try exact absurd h (by simp)
  case ostr nm =>
    cases hc : checkNumField c "cost" with
    | error e => rw [hc] at h; exact absurd h (by simp)
    | ok nc =>
      rw [hc] at h
      cases hd : checkNumField d "discount"
      case error e => rw [hd] at h; exact absurd h (by simp)
      case ok nd =>
        rw [hd] at h
        cases ht : checkNumField t "tax"
        case error e => rw [ht] at h; exact absurd h (by simp)
        case ok nt =>
          rw [ht] at h
          obtain ⟨hc1, hc2⟩ := checkNumField_ok hc
          obtain ⟨hd1, hd2⟩ := checkNumField_ok hd
          obtain ⟨ht1, ht2⟩ := checkNumField_ok ht
          exact ⟨nm, nc, nd, nt, rfl, hc1, hd1, ht1, hc2, hd2, ht2⟩

/-- extractItems succeeds only when every element is exactly an
Item. -/
theorem extractItems_ok_shape :
    ∀ {xs : List PyObj} {its : List Item}, extractItems xs = .ok its →
      ∀ x ∈ xs, x.isItem = true := by
  intro xs
  induction xs with
  | nil => simp
  | cons hd tl ih =>
    intro its h x hx
    cases hd <;> simp only [extractItems] at h <;> try exact absurd h (by simp)
    case oitem it =>
      cases htl : extractItems tl with
      | error e => rw [htl] at h; exact absurd h (by simp)
      | ok rest =>
        rcases List.mem_cons.mp hx with h1 | h1
        · rw [h1]; rfl
        · exact ih htl x h1

/-- Claim C5: each constructor rejects invalid input with an error and
returns no object: Item on a non-str name, a non-Number numeric field,
or a negative numeric field; ItemList on a non-sequence argument or on
an element that is not an Item; Receipt on non-mapping metadata or a
non-ItemList second argument. -/
theorem constructors_reject_invalid :
    (∀ name c d t : PyObj,
        (name.isStr = false ∨ c.isNum = false ∨ d.isNum = false ∨
          t.isNum = false) →
        (mkItem name c d t).isOk = false) ∧
    (∀ (name : String) (nc nd nt : PyNum),
        (nc.toRat < 0 ∨ nd.toRat < 0 ∨ nt.toRat < 0) →
        (mkItem (.ostr name) (.onum nc) (.onum nd) (.onum nt)).isOk = false) ∧
    (∀ x : PyObj, x.isSequence = false → (mkItemList x).isOk = false) ∧
    (∀ (xs : List PyObj) (x : PyObj), x ∈ xs → x.isItem = false →
        (mkItemList (.olist xs)).isOk = false ∧
          (mkItemList (.otuple xs)).isOk = false) ∧
    (∀ m il : PyObj, m.isMapping = false → (mkReceipt m il).isOk = false) ∧
    (∀ m il : PyObj, il.isItemListObj = false →
        (mkReceipt m il).isOk = false) := by
  refine ⟨?_, ?_, ?_, ?_, ?_, ?_⟩
  · intro name c d t hbad
    cases hm : mkItem name c d t with
    | error e => simp [Except.isOk, Except.toBool]
    | ok it =>
      obtain ⟨nm, nc, nd, nt, h1, h2, h3, h4, -, -, -⟩ := mkItem_ok_shape hm
      subst h1; subst h2; subst h3; subst h4
      rcases hbad with hb | hb | hb | hb <;> simp [PyObj.isStr, PyObj.isNum] at hb
  · intro name nc nd nt hneg
    cases hm : mkItem (.ostr name) (.onum nc) (.onum nd) (.onum nt) with
    | error e => simp [Except.isOk, Except.toBool]
    | ok it =>
      obtain ⟨nm, mc, md, mt, -, h2, h3, h4, g2, g3, g4⟩ := mkItem_ok_shape hm
      cases h2; cases h3; cases h4
      rcases hneg with hb | hb | hb
      · exact absurd g2 (not_le.mpr hb)
      · exact absurd g3 (not_le.mpr hb)
      · exact absurd g4 (not_le.mpr hb)
  · intro x hx
    cases x <;> simp_all [PyObj.isSequence, mkItemList, Except.isOk, Except.toBool]
  · intro xs x hmem hnotitem
    constructor <;>
    · cases hm : mkItemList (.olist xs) <;>
        cases hmt : mkItemList (.otuple xs) <;>
        simp only [mkItemList] at hm hmt <;>
        try simp [Except.isOk, Except.toBool]
      all_goals
        cases hext : extractItems xs <;> rw [hext] at hm hmt <;>
          simp at hm hmt
      all_goals
        exact absurd (extractItems_ok_shape hext x hmem) (by simp [hnotitem])
  · intro m il hm
    cases m <;> cases il <;>
      simp_all [PyObj.isMapping, mkReceipt, Except.isOk, Except.toBool]
  · intro m il hil
    cases m <;> cases il <;>
      simp_all [PyObj.isItemListObj, mkReceipt, Except.isOk, Except.toBool]

/-- Witness for C5: one concrete rejected input per constructor
clause. -/
theorem constructors_reject_invalid_witness :
    (mkItem (.onum (.pint 1)) (.onum (.pint 1)) (.onum (.pint 1))
        (.onum (.pint 1))).isOk = false ∧
    (mkItem (.ostr "a") (.onum (.pint (-1))) (.onum (.pint 0))
        (.onum (.pint 0))).isOk = false ∧
    (mkItemList (.onum (.pint 3))).isOk = false ∧
    (mkItemList (.olist [.ostr "z"])).isOk = false ∧
    (mkReceipt (.olist []) (.oitemList { items := [] })).isOk = false ∧
    (mkReceipt (.odict []) (.ostr "s")).isOk = false :=
  ⟨constructors_reject_invalid.1 _ _ _ _ (Or.inl (by rfl)),
   constructors_reject_invalid.2.1 "a" (.pint (-1)) (.pint 0) (.pint 0)
     (Or.inl (by norm_num [PyNum.toRat])),
   constructors_reject_invalid.2.2.1 _ (by rfl),
   (constructors_reject_invalid.2.2.2.1 [.ostr "z"] (.ostr "z") (by simp)
     (by rfl)).1,
   constructors_reject_invalid.2.2.2.2.1 _ _ (by rfl),
   constructors_reject_invalid.2.2.2.2.2 _ _ (by rfl)⟩

/-- Claim C10: the container checks are exact-type checks: ItemList
rejects anything whose exact type is not list or tuple, including an
ItemList of valid Items; Receipt rejects any metadata whose exact type
is not dict, including dict subclasses. -/
theorem exact_type_container_checks :
    (∀ x : PyObj, x.isList = false → x.isTuple = false →
        (mkItemList x).isOk = false) ∧
    (∀ il : ItemList, (mkItemList (.oitemList il)).isOk = false) ∧
    (∀ m il : PyObj, m.isDict = false → (mkReceipt m il).isOk = false) ∧
    (∀ (e : Meta) (il : ItemList),
        (mkReceipt (.odictSub e) (.oitemList il)).isOk = false) := by
  refine ⟨?_, ?_, ?_, ?_⟩
  · intro x h1 h2
    cases x <;> simp_all [PyObj.isList, PyObj.isTuple, mkItemList,
      Except.isOk, Except.toBool]
  · intro il
    simp [mkItemList, Except.isOk, Except.toBool]
  · intro m il hm
    cases m <;> cases il <;>
      simp_all [PyObj.isDict, mkReceipt, Except.isOk, Except.toBool]
  · intro e il
    simp [mkReceipt, Except.isOk, Except.toBool]

/-- Witness for C10: an ItemList holding one valid Item is itself
rejected by ItemList, and an OrderedDict-style mapping is rejected by
Receipt. -/
theorem exact_type_container_checks_witness :
    (mkItemList (.oitemList unitItemList)).isOk = false ∧
    (mkReceipt (.odictSub [("store", .mstr "Costco")])
        (.oitemList { items := [] })).isOk = false ∧
    (mkItemList (.oitemList { items := [] })).isOk = false ∧
    (mkReceipt (.oother "OrderedDict") (.oitemList { items := [] })).isOk
        = false :=
  ⟨exact_type_container_checks.1 _ (by rfl) (by rfl),
   exact_type_container_checks.2.2.2 _ _,
   exact_type_container_checks.2.1 _,
   exact_type_container_checks.2.2.1 _ _ (by rfl)⟩

/-- The length-and-zip check of ItemList.__eq__ is pointwise equality
in order. -/
theorem itemList_check_forall2 (as bs : List Item) :
    ((as.length == bs.length) &&
((as.zip bs).all (fun p => p.1.eqPy p.2))) = true ↔
      List.Forall₂ (fun a b => a.eqPy b = true) as bs := by
  induction as generalizing bs with
  | nil => cases bs <;> simp
  | cons a as ih =>
    cases bs with
    | nil => simp
    | cons b bs =>
      simp only [List.length_cons, List.zip_cons_cons, List.all_cons,
        Bool.and_eq_true, beq_iff_eq, Nat.add_right_cancel_iff,
        List.forall₂_cons, ← ih]
      tauto

/-- Claim C6: two Receipts are equal exactly when their metadata hold
the same set of key/value pairs (insertion order irrelevant) and their
ItemLists are equal order-sensitively (same length, pairwise-equal
Items in the same positions); swapping two distinct Items breaks
ItemList equality. -/
theorem receipt_eq_semantics :
    (∀ r1 r2 : Receipt, r1.eqPy r2 = true ↔
        ((∀ p ∈ r1.meta, ∃ q ∈ r2.meta, metaPairEq p q = true) ∧
         (∀ q ∈ r2.meta, ∃ p ∈ r1.meta, metaPairEq q p = true) ∧
         List.Forall₂ (fun a b => a.eqPy b = true)
           r1.itemlist.items r2.itemlist.items)) ∧
    (∀ a b : Item, a.eqPy b = false →
        ItemList.eqPy { items := [a, b] } { items := [b, a] } = false) := by
  constructor
  · intro r1 r2
    rw [Receipt.eqPy, ItemList.eqPy, Bool.and_eq_true,
      itemList_check_forall2, metaSetEq, Bool.and_eq_true]
    simp only [List.all_eq_true, List.any_eq_true]
    tauto
  · intro a b h
    simp [ItemList.eqPy, h]

/-- Witness for C6: the two distinct sample items in swapped order
compare unequal. -/
theorem receipt_eq_semantics_witness :
    ItemList.eqPy { items := [sampleItem1, sampleItem2] }
      { items := [sampleItem2, sampleItem1] } = false :=
  receipt_eq_semantics.2 sampleItem1 sampleItem2 (by decide)

/-- Claim C2: when any required entry is missing, write fails at once
with the error naming exactly the missing required entries; the result
is the same for every variables mapping and receipt and does not use
any conversion function, so nothing is evaluated before the error. -/
theorem write_missing_required (t : FnTable) (v : Vars) (r : Receipt)
    (h : requiredMissing t ≠ []) :
    write t v r = .error (.missingConversionFns (requiredMissing t)) ∧
    (∀ s, s ∈ requiredMissing t ↔ s ∈ requiredNames ∧ hasEntry t s = false) ∧
    (∀ (v2 : Vars) (r2 : Receipt), write t v2 r2 = write t v r) := by
  have hlen : (requiredMissing t).length > 0 := List.length_pos.mpr h
  refine ⟨?_, ?_, ?_⟩
  · simp [write, hlen]
  · intro s
    simp [requiredMissing, List.mem_filter]
  · intro v2 r2
    simp [write, hlen]

/-- Witness for C2: the CSV table without ItemListSep fails with the
error naming exactly ItemListSep. -/
theorem write_missing_required_witness :
    write noSepTable [] sampleReceipt =
      .error (.missingConversionFns ["ItemListSep"]) :=
  (write_missing_required noSepTable [] sampleReceipt (by decide)).1

/-- Claim C1: with the four required entries present, write converts
bottom-up: each Item in original order through the Item entry (fed the
per-field conversions), the outputs joined with the ItemListSep
separator, the join through the ItemList entry, and the result handed
with the metadata and variables to the Receipt entry, whose return
value is the result of write. -/
theorem write_bottom_up (t : FnTable) (v : Vars) (r : Receipt)
    (fr : Meta → String → Vars → String)
    (fit : PyObj → PyObj → PyObj → PyObj → String)
    (fil : String → String) (fsep : Unit → String)
    (hr : t.fReceipt = some fr) (hit : t.fItem = some fit)
    (hil : t.fItemList = some fil) (hsep : t.fItemListSep = some fsep) :
    write t v r = .ok (fr r.meta
      (fil (String.intercalate (fsep ())
        (r.itemlist.items.map (fun it =>
          fit ((resolve t).rName it.name) ((resolve t).rCost it.cost)
            ((resolve t).rDiscount it.discount)
            ((resolve t).rTax it.tax))))) v) := by
  have hmiss : requiredMissing t = [] := by
    simp [requiredMissing, requiredNames, hasEntry, hr, hit, hil, hsep]
  simp [write, hmiss, writeAux, resolve, hr, hit, hil, hsep]

/-- Witness for C1: the CSV table over the docstring receipt. -/
theorem write_bottom_up_witness :
    write csvTable [] sampleReceipt = .ok (csvReceiptF sampleReceipt.meta
      (csvItemListF (String.intercalate (csvItemListSepF ())
        (sampleReceipt.itemlist.items.map (fun it =>
          csvItemF ((resolve csvTable).rName it.name)
            ((resolve csvTable).rCost it.cost)
            ((resolve csvTable).rDiscount it.discount)
            ((resolve csvTable).rTax it.tax))))) []) :=
  write_bottom_up csvTable [] sampleReceipt csvReceiptF csvItemF
    csvItemListF csvItemListSepF rfl rfl rfl rfl

/-- Claim C7: write is curried; the partially applied write t v is a
one-argument function agreeing with the direct three-argument call on
any two receipts. -/
theorem write_partial_application (t : FnTable) (v : Vars)
    (r1 r2 : Receipt) :
    (write t v) r1 = write t v r1 ∧ (write t v) r2 = write t v r2 :=
  ⟨rfl, rfl⟩

/-- Claim C8: write behaves as if every omitted optional entry were
its default (identity for Name, number-to-text for Cost, Discount and
Tax), and a caller-supplied optional entry replaces the default, its
output being exactly what flows into the Item entry's corresponding
parameter. -/
theorem write_optional_defaults (t : FnTable) (v : Vars) (r : Receipt)
    (g : String → PyObj) (gc gd gt : PyNum → PyObj) :
    write t v r = write (fillDefaults t) v r ∧
    (resolve { t with fName := none }).rName = defaultName ∧
    (resolve { t with fCost := none }).rCost = defaultNumStr ∧
    (resolve { t with fDiscount := none }).rDiscount = defaultNumStr ∧
    (resolve { t with fTax := none }).rTax = defaultNumStr ∧
    (resolve { t with fName := some g }).rName = g ∧
    (resolve { t with fCost := some gc }).rCost = gc ∧
    (resolve { t with fDiscount := some gd }).rDiscount = gd ∧
    (resolve { t with fTax := some gt }).rTax = gt ∧
    (∀ it : Item, writeAux (resolve t) v (.nItem it) =
        (resolve t).rItem ((resolve t).rName it.name)
          ((resolve t).rCost it.cost) ((resolve t).rDiscount it.discount)
          ((resolve t).rTax it.tax)) := by
  refine ⟨rfl, rfl, rfl, rfl, rfl, rfl, rfl, rfl, rfl, fun it => ?_⟩
  simp [writeAux]

/-- Claim C3 (failing): Item.__repr__ does not escape the name, so an
Item whose name contains a double quote prints as a string that is not
a re-parseable constructor call; a quote-free Item round-trips. -/
theorem item_repr_not_reparseable :
    Item.reprPy quoteItem = "Item(\"\"\", 0, 0, 0)" ∧
    parseItem (Item.reprPy quoteItem) = none ∧
    (parseItem (Item.reprPy plainItem)).map (fun x => x.eqPy plainItem)
      = some true := by
  refine ⟨rfl, by decide, by decide⟩

/-- End-to-end sanity check: the docstring example of write renders to
the documented CSV output. -/
theorem csv_end_to_end :
    write csvTable [] sampleReceipt = .ok
      ("# Store: Costco\n# Date: Jan 27th\n# Location: Berkeley\n" ++
        "Food 1, 10.0, 2.35, 9.0\nFood 2, 20.0, 4.0, 9.0") := by
  have h : write csvTable [] sampleReceipt =
      .ok (writeAux (resolve csvTable) [] (.nReceipt sampleReceipt)) := rfl
  rw [h]
  refine congrArg Except.ok ?_
  simp only [writeAux]
  decide
